import Mathlib

/-!
Verification of the pondsys ponding-convergence engine.

This file gives a shallow embedding, in Lean 4, of the beam data model and
operations of `pondsys/beam/beam.py` and `pondsys/utils/divide_by_zero.py`.
Real numbers of the source are modelled as rationals; Python exceptions are
modelled by returning the (possibly partially mutated) state together with an
`Option` error, mirroring the mutation order of the source.  The external
finite-element solver (Pynite), the section-property tables (steelpy/joistpy)
and scipy's Simpson quadrature are external collaborators of the repository:
they are abstracted as oracle parameters (`Solver`, `SectionDB`) and uniform
composite Simpson quadrature, matching the call contract described in the
repository's spec.
-/

attribute [local semireducible] Rat.add Rat.mul Rat.inv Rat.sub Rat.ofScientific

set_option maxRecDepth 1000000

/-- Embedding of Python's `str.upper()` (the designators are ASCII), mapping
`Char.toUpper` over the characters. -/
def pyUpper (s : String) : String := ⟨s.data.map Char.toUpper⟩

/-- Python float values produced by `divide_by_zero`: either a finite value or
+infinity (the value Python's `float('inf')` denotes). -/
inductive PFloat where
  | fin (q : ℚ)
  | inf
deriving DecidableEq, Repr, Inhabited

/-- Comparison `p < c` between a `PFloat` and a finite bound, as Python
evaluates it: `inf < c` is `False`. -/
def PFloat.ltq : PFloat → ℚ → Bool
  | .fin q, c => decide (q < c)
  | .inf, _ => false

/-- Comparison `p <= c` between a `PFloat` and a finite bound: `inf <= c` is
`False`. -/
def PFloat.leq : PFloat → ℚ → Bool
  | .fin q, c => decide (q ≤ c)
  | .inf, _ => false

/-- Embedding of `pondsys.utils.divide_by_zero.divide_by_zero`: returns `a / b`
when `b` is nonzero, and +infinity when the division would raise
`ZeroDivisionError` (that is, exactly when `b = 0`). -/
def divide_by_zero (a b : ℚ) : PFloat :=
  if b = 0 then PFloat.inf else PFloat.fin (a / b)

/-- Load cases table of `beam.py` (coefficients over [D, Lr, R, S, PR, PS]). -/
def load_cases : List (String × List ℚ) :=
  [("1.0D",  [1, 0, 0, 0, 0, 0]),
   ("1.0Lr", [0, 1, 0, 0, 0, 0]),
   ("1.0R",  [0, 0, 1, 0, 0, 0]),
   ("1.0PR", [0, 0, 0, 0, 1, 0]),
   ("1.0S",  [0, 0, 0, 1, 0, 0]),
   ("1.0PS", [0, 0, 0, 0, 0, 1])]

/-- ASD family of `load_combinations` in `beam.py`. -/
def load_combinations_asd : List (String × List ℚ) :=
  [("1.0D+1.0Lr",     [1, 1, 0, 0, 0, 0]),
   ("1.0D+1.0R",      [1, 0, 1, 0, 0, 0]),
   ("1.0D+1.0R+1.0P", [1, 0, 1, 0, 1, 0]),
   ("1.0D+1.0S",      [1, 0, 0, 1, 0, 0]),
   ("1.0D+1.0S+1.0P", [1, 0, 0, 1, 0, 1])]

/-- LRFD family of `load_combinations` in `beam.py`. -/
def load_combinations_lrfd : List (String × List ℚ) :=
  [("1.4D",           [1.4, 0, 0, 0, 0, 0]),
   ("1.2D+1.6Lr",     [1.2, 1.6, 0, 0, 0, 0]),
   ("1.2D+1.6R",      [1.2, 0, 1.6, 0, 0, 0]),
   ("1.2D+1.6R+1.6P", [1.2, 0, 1.6, 0, 1.6, 0]),
   ("1.2D+1.6S",      [1.2, 0, 0, 1.6, 0, 0]),
   ("1.2D+1.6S+1.6P", [1.2, 0, 0, 1.6, 0, 1.6])]

/-- Names of the base load cases, in table order. -/
def caseNames : List String := load_cases.map Prod.fst

/-- Names of the ASD combinations, in table order. -/
def asdComboNames : List String := load_combinations_asd.map Prod.fst

/-- Names of the LRFD combinations, in table order. -/
def lrfdComboNames : List String := load_combinations_lrfd.map Prod.fst

/-- Every combination name registered on a model by `create_model`, in
registration order (cases, then ASD, then LRFD).  Pynite's per-node `RxnFY`
dictionary is keyed by exactly these names. -/
def allComboNames : List String := caseNames ++ asdComboNames ++ lrfdComboNames

/-- Derived section properties stored on the beam (`section_properties`). -/
structure SecProps where
  Iy : ℚ
  Iz : ℚ
  J : ℚ
  A : ℚ
deriving DecidableEq, Repr, Inhabited

/-- A support: `[location, DX, DY, RZ]` in `beam.py`. -/
structure Support where
  location : ℚ
  DX : ℚ
  DY : ℚ
  RZ : ℚ
deriving DecidableEq, Repr, Inhabited

/-- A distributed load `[start, stop, start_load, stop_load, case]`; the
source's `case` entry is called `caseTag` here since `case` is reserved in
Lean. -/
structure DistLoad where
  start : ℚ
  stop : ℚ
  start_load : ℚ
  stop_load : ℚ
  caseTag : String
deriving DecidableEq, Repr, Inhabited

/-- A point load `[location, load, case]`. -/
structure PointLoad where
  location : ℚ
  load : ℚ
  caseTag : String
deriving DecidableEq, Repr, Inhabited

/-- A per-station array for each of the two tracks: the `{'rain': …,
'snow': …}` dictionaries appended to the depth and deflection histories. -/
structure TrackPair where
  rain : List ℚ
  snow : List ℚ
deriving DecidableEq, Repr, Inhabited

/-- An envelope map keyed by `{cases, asd, lrfd}`, each an insertion-ordered
dictionary from case/combination name to value. -/
structure EnvMap where
  cases : List (String × ℚ)
  asd : List (String × ℚ)
  lrfd : List (String × ℚ)
deriving DecidableEq, Repr, Inhabited

/-- The `analysis_stats` dictionary written on successful convergence. -/
structure Stats where
  iterations : ℕ
  ponded_area : List (ℚ × ℚ)
  rel_err : List (PFloat × PFloat)
deriving DecidableEq, Repr, Inhabited

/-- Errors raised by the beam operations: Python `ValueError`/`TypeError`
validation errors, and the `RuntimeWarning` convergence failure. -/
inductive PondError where
  | valueError (msg : String)
  | convergenceFailure (msg : String)
deriving DecidableEq, Repr, Inhabited

/-- The `Beam` object state.  The Pynite model handle (`self.model`) is an
external-solver resource and is not part of the embedded state; the source's
`section` attribute is called `section'` because `section` is reserved in
Lean.  Dictionaries are modelled as insertion-ordered association lists. -/
structure Beam where
  length : ℚ
  name : String
  beam_slope : ℚ
  tributary_width : ℚ
  rain_depth : ℚ × ℚ
  section' : String
  section_properties : SecProps
  stations : List ℚ
  segments : List (ℚ × ℚ)
  station_elevations : List ℚ
  supports : List Support
  dist_loads : List DistLoad
  point_loads : List PointLoad
  support_nodes : List (String × ℚ)
  reaction_envelope : List (String × List (String × ℚ))
  max_moment_envelope : EnvMap
  min_moment_envelope : EnvMap
  max_shear_envelope : EnvMap
  min_shear_envelope : EnvMap
  max_defl_envelope : EnvMap
  min_defl_envelope : EnvMap
  analysis_stats : Option Stats
  ponded_depth_history : List TrackPair
  deflection_history : List TrackPair
  valid_results : Bool
  analysis_ready : Bool
deriving DecidableEq, Repr, Inhabited

/-- The section-property collaborator (steelpy's `aisc` W-shape table and
joistpy's `sji` K/KCS tables).  These libraries are external to the
repository; the embedding abstracts them as a record of pure lookup
functions, plus the combined `valid_sections` designator list built at module
load.  Joist moment-of-inertia lookups are span-dependent, as in
`get_mom_inertia(span=...)`. -/
structure SectionDB where
  valid : List String
  wIy : String → ℚ
  wIx : String → ℚ
  wJ : String → ℚ
  wArea : String → ℚ
  kMomInertia : String → ℚ → ℚ
  kEqArea : String → ℚ
  kcsMomInertia : String → ℚ → ℚ
  kcsEqArea : String → ℚ

/-- Embedding of `Beam.add_support`.  Validation happens before the append;
on a validation error the state is returned unchanged, mirroring that the
source raises before mutating. -/
def Beam.add_support (st : Beam) (location DX DY RZ : ℚ) :
    Beam × Option PondError :=
  if location < 0 then
    (st, some (.valueError "Location must be positive."))
  else
    ({ st with supports := st.supports ++ [⟨location, DX, DY, RZ⟩],
               valid_results := false }, none)

/-- Embedding of `Beam.delete_support`.  The popped element is discarded (the
source returns it); only the state effect is modelled. -/
def Beam.delete_support (st : Beam) (index : ℤ) : Beam × Option PondError :=
  if index < 0 ∨ index ≥ st.supports.length then
    (st, some (.valueError "Invalid index."))
  else
    ({ st with supports := st.supports.eraseIdx index.toNat,
               valid_results := false }, none)

/-- Embedding of `Beam.add_or_update_beam_slope`: stores the slope and
recomputes `station_elevations = stations * beam_slope`. -/
def Beam.add_or_update_beam_slope (st : Beam) (beam_slope : ℚ) :
    Beam × Option PondError :=
  if beam_slope < 0 then
    (st, some (.valueError "Beam slope must be positive."))
  else
    ({ st with beam_slope := beam_slope,
               station_elevations := st.stations.map (fun s => s * beam_slope),
               valid_results := false }, none)

/-- Embedding of `Beam.add_dist_load`. -/
def Beam.add_dist_load (st : Beam) (start stop start_load stop_load : ℚ)
    (caseTag : String) : Beam × Option PondError :=
  if start < 0 ∨ stop < 0 then
    (st, some (.valueError "Start and stop locations must be positive."))
  else if start > st.length ∨ stop > st.length then
    (st, some (.valueError
      "Start and stop locations must be less or equal to the length of the beam."))
  else if caseTag ∉ (["D", "Lr", "R", "S"] : List String) then
    (st, some (.valueError
      "Case must be one of dead (D), roof live (Lr), rain (R), or snow (S)."))
  else
    ({ st with
        dist_loads := st.dist_loads ++ [⟨start, stop, start_load, stop_load, caseTag⟩],
        valid_results := false }, none)

/-- Embedding of `Beam.delete_dist_load`. -/
def Beam.delete_dist_load (st : Beam) (index : ℤ) : Beam × Option PondError :=
  if index < 0 ∨ index ≥ st.dist_loads.length then
    (st, some (.valueError "Invalid index."))
  else
    ({ st with dist_loads := st.dist_loads.eraseIdx index.toNat,
               valid_results := false }, none)

/-- Embedding of `Beam.clear_dist_loads`: keeps the loads whose case differs
from the given one. -/
def Beam.clear_dist_loads (st : Beam) (caseTag : String) :
    Beam × Option PondError :=
  if caseTag ∉ (["D", "Lr", "R", "S"] : List String) then
    (st, some (.valueError
      "Case must be one of dead (D), roof live (Lr), rain (R), or snow (S)."))
  else
    ({ st with dist_loads := st.dist_loads.filter (fun l => l.caseTag ≠ caseTag),
               valid_results := false }, none)

/-- Embedding of `Beam.add_point_load`. -/
def Beam.add_point_load (st : Beam) (location load : ℚ) (caseTag : String) :
    Beam × Option PondError :=
  if location < 0 then
    (st, some (.valueError "Location must be positive."))
  else if location > st.length then
    (st, some (.valueError
      "Location must be less or equal to the length of the beam."))
  else if caseTag ∉ (["D", "Lr", "R", "S"] : List String) then
    (st, some (.valueError
      "Case must be one of dead (D), roof live (Lr), rain (R), or snow (S)."))
  else
    ({ st with point_loads := st.point_loads ++ [⟨location, load, caseTag⟩],
               valid_results := false }, none)

/-- Embedding of `Beam.delete_point_load`. -/
def Beam.delete_point_load (st : Beam) (index : ℤ) : Beam × Option PondError :=
  if index < 0 ∨ index ≥ st.point_loads.length then
    (st, some (.valueError "Invalid index."))
  else
    ({ st with point_loads := st.point_loads.eraseIdx index.toNat,
               valid_results := false }, none)

/-- Embedding of `Beam.clear_point_loads`. -/
def Beam.clear_point_loads (st : Beam) (caseTag : String) :
    Beam × Option PondError :=
  if caseTag ∉ (["D", "Lr", "R", "S"] : List String) then
    (st, some (.valueError
      "Case must be one of dead (D), roof live (Lr), rain (R), or snow (S)."))
  else
    ({ st with point_loads := st.point_loads.filter (fun l => l.caseTag ≠ caseTag),
               valid_results := false }, none)

/-- Embedding of `Beam.add_or_update_tributary_width`. -/
def Beam.add_or_update_tributary_width (st : Beam) (tributary_width : ℚ) :
    Beam × Option PondError :=
  if tributary_width < 0 then
    (st, some (.valueError "Tributary width must be positive."))
  else
    ({ st with tributary_width := tributary_width, valid_results := false }, none)

/-- Embedding of `Beam.add_or_update_rain_load`: stores `rain_depth`, computes
the rain load limit with the divide-by-zero guard (`inf <= length` is false,
so a zero slope yields the full beam length), and when `auto_add_dist_load`
is set, clears case-'R' distributed loads and installs the triangular rain
load, propagating any error exactly as the exception would. -/
def Beam.add_or_update_rain_load (st : Beam) (rain_depth : ℚ × ℚ)
    (auto_add_dist_load : Bool) : Beam × Option PondError :=
  if rain_depth.1 < 0 ∨ rain_depth.2 < 0 then
    (st, some (.valueError "Rain depth must be positive."))
  else
    let st := { st with rain_depth := rain_depth }
    let total := st.rain_depth.1 + st.rain_depth.2
    let rain_load_limit :=
      if (divide_by_zero total st.beam_slope).leq st.length then
        total / st.beam_slope
      else
        st.length
    let rain_load_start := 5.2 * total
    let rain_load_end := 5.2 * (total - rain_load_limit * st.beam_slope)
    if auto_add_dist_load then
      match st.clear_dist_loads "R" with
      | (st', some e) => (st', some e)
      | (st', none) =>
        match st'.add_dist_load 0 rain_load_limit
            (rain_load_start * st'.tributary_width)
            (rain_load_end * st'.tributary_width) "R" with
        | (st'', some e) => (st'', some e)
        | (st'', none) => ({ st'' with valid_results := false }, none)
    else
      ({ st with valid_results := false }, none)

/-- Consume one-or-more digits at the head of a character list (the `[0-9]+`
atom).  Since the character after a maximal digit run is never a digit, greedy
matching without backtracking is equivalent to the source's regex semantics
for these patterns. -/
def matchDigits1 : List Char → Option (List Char)
  | c :: r => if c.isDigit then some (r.dropWhile Char.isDigit) else none
  | [] => none

/-- Consume one expected letter, case-insensitively (the patterns are compiled
with `re.IGNORECASE`). -/
def matchChar (a : Char) : List Char → Option (List Char)
  | c :: r => if c.toUpper = a then some r else none
  | [] => none

/-- Prefix match of `w[0-9]+x[0-9]+` (`re.match` anchors at the start only). -/
def isWShapeName (s : String) : Bool :=
  match matchChar 'W' s.toList with
  | none => false
  | some r1 =>
    match matchDigits1 r1 with
    | none => false
    | some r2 =>
      match matchChar 'X' r2 with
      | none => false
      | some r3 => (matchDigits1 r3).isSome

/-- Prefix match of `[0-9]+k[0-9]+`. -/
def isKJoistName (s : String) : Bool :=
  match matchDigits1 s.toList with
  | none => false
  | some r1 =>
    match matchChar 'K' r1 with
    | none => false
    | some r2 => (matchDigits1 r2).isSome

/-- Prefix match of `[0-9]+kcs[0-9]+`. -/
def isKCSJoistName (s : String) : Bool :=
  match matchDigits1 s.toList with
  | none => false
  | some r1 =>
    match matchChar 'K' r1 with
    | none => false
    | some r2 =>
      match matchChar 'C' r2 with
      | none => false
      | some r3 =>
        match matchChar 'S' r3 with
        | none => false
        | some r4 => (matchDigits1 r4).isSome

/-- Embedding of `Beam.add_or_update_section`; `sectionName` is the source's
`section` parameter.  The designator is validated against the collaborator's
`valid_sections` list, stored uppercased, and the derived properties are
looked up per family; joist families apply the fixed 0.05 and 1.05
multipliers to the span-dependent strong-axis inertia. -/
def Beam.add_or_update_section (db : SectionDB) (st : Beam)
    (sectionName : String) : Beam × Option PondError :=
  if pyUpper sectionName ∉ db.valid then
    (st, some (.valueError
      "Invalid section. Please enter a W-shape, K-joist, or KCS-joist."))
  else
    let st := { st with section' := pyUpper sectionName }
    let u := pyUpper st.section'
    if isWShapeName u then
      ({ st with
          section_properties :=
            { Iy := db.wIy u, Iz := db.wIx u, J := db.wJ u, A := db.wArea u },
          valid_results := false }, none)
    else if isKJoistName u then
      let des := "K_" ++ u
      ({ st with
          section_properties :=
            { Iy := db.kMomInertia des st.length * 0.05,
              Iz := db.kMomInertia des st.length,
              J := db.kMomInertia des st.length * 1.05,
              A := db.kEqArea des },
          valid_results := false }, none)
    else if isKCSJoistName u then
      let des := "KCS_" ++ u
      ({ st with
          section_properties :=
            { Iy := db.kcsMomInertia des st.length * 0.05,
              Iz := db.kcsMomInertia des st.length,
              J := db.kcsMomInertia des st.length * 1.05,
              A := db.kcsEqArea des },
          valid_results := false }, none)
    else
      ({ st with valid_results := false }, none)

/-- Embedding of `Beam.__init__`: builds the base attributes (stations from
`np.linspace(0, length, 101)`, all-zero depth and deflection seeds, empty
load and envelope containers) and then runs the same mutator chain the
constructor runs: slope 0, rain load (0, 0) without the automatic distributed
load, section "W12X14", tributary width 0. -/
def Beam.init (db : SectionDB) (length : ℚ) (name : String) : Beam :=
  let stations := (List.range 101).map (fun j => length * j / 100)
  let st : Beam := {
    length := length
    name := name
    beam_slope := 0
    tributary_width := 0
    rain_depth := (0, 0)
    section' := ""
    section_properties := default
    stations := stations
    segments := stations.zip (stations.drop 1)
    station_elevations := List.replicate 101 0
    supports := []
    dist_loads := []
    point_loads := []
    support_nodes := []
    reaction_envelope := []
    max_moment_envelope := default
    min_moment_envelope := default
    max_shear_envelope := default
    min_shear_envelope := default
    max_defl_envelope := default
    min_defl_envelope := default
    analysis_stats := none
    ponded_depth_history := [⟨List.replicate 101 0, List.replicate 101 0⟩]
    deflection_history := [⟨List.replicate 101 0, List.replicate 101 0⟩]
    valid_results := false
    analysis_ready := false }
  let st := (st.add_or_update_beam_slope 0).1
  let st := (st.add_or_update_rain_load (0, 0) false).1
  let st := (st.add_or_update_section db "W12X14").1
  let st := (st.add_or_update_tributary_width 0).1
  st

/-- `np.isclose` with numpy's default tolerances (`atol = 1e-8`,
`rtol = 1e-5`): `|a - b| <= atol + rtol * |b|`. -/
def npIsClose (a b : ℚ) : Bool := decide (|a - b| ≤ 1e-8 + 1e-5 * |b|)

/-- Coincidence test of two model-node coordinate triples as `create_model`
performs it (`np.isclose(...).all()` over (X, Y, Z)). -/
def npIsClose3 (a b : ℚ × ℚ × ℚ) : Bool :=
  npIsClose a.1 b.1 && npIsClose a.2.1 b.2.1 && npIsClose a.2.2 b.2.2

/-- Python-dict assignment `d[k] = v` on an insertion-ordered association
list: overwrites in place if the key exists, otherwise appends. -/
def dictInsert {α : Type} (l : List (String × α)) (k : String) (v : α) :
    List (String × α) :=
  if l.any (fun p => p.1 = k) then
    l.map (fun p => if p.1 = k then (k, v) else p)
  else
    l ++ [(k, v)]

/-- Node list built by `create_model`: the two member end nodes `N1`, `N2`
(coordinates in inches), then one node per support location not already
coincident with an existing node; names are `N{count+1}`.  Only the X
coordinate is stored since Y and Z are always zero. -/
def buildNodes (st : Beam) : List (String × ℚ) :=
  st.supports.foldl
    (fun nodes s =>
      if nodes.any (fun n => npIsClose3 (n.2, 0, 0) (s.location * 12, 0, 0)) then
        nodes
      else
        nodes ++ [("N" ++ toString (nodes.length + 1), s.location * 12)])
    [("N1", 0), ("N2", st.length * 12)]

/-- The `support_nodes` dictionary rebuilt by `create_model`: for each
support, every node whose coordinates are close to the support location is
recorded under its name, mapping to the support location in feet. -/
def computeSupportNodes (st : Beam) : List (String × ℚ) :=
  let nodes := buildNodes st
  st.supports.foldl
    (fun sn s =>
      nodes.foldl
        (fun sn n =>
          if npIsClose3 (n.2, 0, 0) (s.location * 12, 0, 0) then
            dictInsert sn n.1 s.location
          else sn)
        sn)
    []

/-- Per-station ponded-depth recomputation (the `np.where` of
`analyze_ponding`): where the deflected surface `elev - defl` lies at or
below the total head, the depth is `total - (elev - defl)`, else zero. -/
def depthUpdate (total : ℚ) (elevs defl : List ℚ) : List ℚ :=
  List.zipWith (fun e d => if e - d ≤ total then total - (e - d) else 0) elevs defl

/-- Composite Simpson quadrature over equally spaced samples with spacing
`h`, the rule `scipy.integrate.simpson` applies to the uniformly spaced
`stations` array with its even count of 100 segments. -/
def simpsonU (h : ℚ) : List ℚ → ℚ
  | [] => 0
  | [_] => 0
  | y0 :: y1 :: rest =>
    match rest with
    | [] => 0
    | y2 :: _ => h / 3 * (y0 + 4 * y1 + y2) + simpsonU h rest

/-- The local loop state of `analyze_ponding`: the two histories on the beam
plus the local `ponded_area_stats` and `rel_err_stats` lists. -/
structure LoopSt where
  pdh : List TrackPair
  dfh : List TrackPair
  areas : List (ℚ × ℚ)
  errs : List (PFloat × PFloat)
deriving DecidableEq, Repr, Inhabited

/-- The external structural solver (Pynite), abstracted at the granularity of
the repository's call contract: given the ponded depths the model was
assembled from (which, with the fixed beam state, determine the model), it
answers the deflection read-back per combination and the envelope queries
used after convergence. -/
structure Solver where
  defl : TrackPair → String → List ℚ
  rxnFY : TrackPair → String → String → ℚ
  maxMoment : TrackPair → String → String → ℚ
  minMoment : TrackPair → String → String → ℚ
  maxDeflection : TrackPair → String → String → ℚ
  minDeflection : TrackPair → String → String → ℚ

/-- One body execution of the `while True` loop of `analyze_ponding` at the
given (already incremented) iteration number: read deflections for the two
unfactored ponding combinations, append them, recompute and append the
ponded depths, integrate the ponded areas, and append the guarded relative
errors `|area_i - area_(i-1)| / area_i`. -/
def pondingBody (solver : Solver) (st : Beam) (iteration : ℕ) (ls : LoopSt) :
    LoopSt :=
  let depths := ls.pdh.getLastD default
  let rain_defl := solver.defl depths "1.0D+1.0R+1.0P"
  let snow_defl := solver.defl depths "1.0D+1.0S+1.0P"
  let dfh := ls.dfh ++ [⟨rain_defl, snow_defl⟩]
  let total := st.rain_depth.1 + st.rain_depth.2
  let newDepths : TrackPair :=
    ⟨depthUpdate total st.station_elevations rain_defl,
     depthUpdate total st.station_elevations snow_defl⟩
  let pdh := ls.pdh ++ [newDepths]
  let area : ℚ × ℚ :=
    (|simpsonU (st.length / 100) newDepths.rain|,
     |simpsonU (st.length / 100) newDepths.snow|)
  let areas := ls.areas ++ [area]
  let prev := areas.getD (iteration - 1) (0, 0)
  let cur := areas.getLastD (0, 0)
  let err : PFloat × PFloat :=
    (divide_by_zero |area.1 - prev.1| cur.1,
     divide_by_zero |area.2 - prev.2| cur.2)
  { pdh := pdh, dfh := dfh, areas := areas, errs := ls.errs ++ [err] }

/-- The convergence test of `analyze_ponding` on the just-appended relative
errors: both tracks strictly below `0.0001` (an infinite relative error is
never below the threshold). -/
def convergedAt (ls : LoopSt) : Bool :=
  let e := ls.errs.getLastD (.fin 0, .fin 0)
  e.1.ltq 0.0001 && e.2.ltq 0.0001

/-- Result of the iteration loop: final loop state, the depths the last
model was assembled from, the final iteration count, and the error, if any. -/
structure GoOut where
  ls : LoopSt
  modelDepths : TrackPair
  iters : ℕ
  err : Option PondError
deriving Repr, Inhabited

/-- The message of the `RuntimeWarning` raised on convergence failure
(spelling as in the source). -/
def convergenceMsg : String :=
  "Convergence not reached after 50 iterations. Try a stiffer secction cross-section."

/-- The iteration loop of `analyze_ponding`.  `iter` is the number of
completed iterations; each recursion step runs one body at `iter + 1`, then
applies the source's exit tests: from iteration 2 onward, break on
convergence, else raise once the iteration count exceeds 50 (so at iteration
51).  The fuel argument only bounds the recursion; started at 51 it is never
exhausted, because iteration 51 always exits. -/
def goLoop (solver : Solver) (st : Beam) :
    ℕ → ℕ → LoopSt → GoOut
  | 0, iter, ls => ⟨ls, default, iter, some (.convergenceFailure convergenceMsg)⟩
  | fuel + 1, iter, ls =>
    let i := iter + 1
    let depths := ls.pdh.getLastD default
    let ls' := pondingBody solver st i ls
    if 1 < i then
      if convergedAt ls' then ⟨ls', depths, i, none⟩
      else if 50 < i then ⟨ls', depths, i, some (.convergenceFailure convergenceMsg)⟩
      else goLoop solver st fuel i ls'
    else
      goLoop solver st fuel i ls'

/-- The history reset at the top of `analyze_ponding` (lines 710-711): both
histories are truncated to their existing first entry. -/
def resetHistories (st : Beam) : Beam :=
  { st with
      ponded_depth_history := [st.ponded_depth_history.headD default],
      deflection_history := [st.deflection_history.headD default] }

/-- Envelope extraction on convergence: per support node, the node's `RxnFY`
dictionary (keyed by every registered combination); per case and per
combination of both families, max/min moment and the sign-flipped max/min
deflection.  Shear envelopes are left untouched (that code is commented out
in the source). -/
def populateEnvelopes (solver : Solver) (st : Beam) (md : TrackPair) : Beam :=
  let sn := computeSupportNodes st
  let re := sn.foldl
    (fun re p =>
      dictInsert re p.1 (allComboNames.map (fun c => (c, solver.rxnFY md p.1 c))))
    st.reaction_envelope
  let maxM :=
    { st.max_moment_envelope with
        cases := caseNames.foldl
          (fun m c => dictInsert m c (solver.maxMoment md "Mz" c))
          st.max_moment_envelope.cases,
        asd := asdComboNames.foldl
          (fun m c => dictInsert m c (solver.maxMoment md "Mz" c))
          st.max_moment_envelope.asd,
        lrfd := lrfdComboNames.foldl
          (fun m c => dictInsert m c (solver.maxMoment md "Mz" c))
          st.max_moment_envelope.lrfd }
  let minM :=
    { st.min_moment_envelope with
        cases := caseNames.foldl
          (fun m c => dictInsert m c (solver.minMoment md "Mz" c))
          st.min_moment_envelope.cases,
        asd := asdComboNames.foldl
          (fun m c => dictInsert m c (solver.minMoment md "Mz" c))
          st.min_moment_envelope.asd,
        lrfd := lrfdComboNames.foldl
          (fun m c => dictInsert m c (solver.minMoment md "Mz" c))
          st.min_moment_envelope.lrfd }
  let maxD :=
    { st.max_defl_envelope with
        cases := caseNames.foldl
          (fun m c => dictInsert m c (-1 * solver.minDeflection md "dy" c))
          st.max_defl_envelope.cases,
        asd := asdComboNames.foldl
          (fun m c => dictInsert m c (-1 * solver.minDeflection md "dy" c))
          st.max_defl_envelope.asd,
        lrfd := lrfdComboNames.foldl
          (fun m c => dictInsert m c (-1 * solver.minDeflection md "dy" c))
          st.max_defl_envelope.lrfd }
  let minD :=
    { st.min_defl_envelope with
        cases := caseNames.foldl
          (fun m c => dictInsert m c (-1 * solver.maxDeflection md "dy" c))
          st.min_defl_envelope.cases,
        asd := asdComboNames.foldl
          (fun m c => dictInsert m c (-1 * solver.maxDeflection md "dy" c))
          st.min_defl_envelope.asd,
        lrfd := lrfdComboNames.foldl
          (fun m c => dictInsert m c (-1 * solver.maxDeflection md "dy" c))
          st.min_defl_envelope.lrfd }
  { st with
      reaction_envelope := re,
      max_moment_envelope := maxM,
      min_moment_envelope := minM,
      max_defl_envelope := maxD,
      min_defl_envelope := minD }

/-- Embedding of `Beam.analyze_ponding`: reset the histories to their seed
entry, fail if no supports are defined (the `create_model` check, reached on
the first iteration before anything else observable), run the iteration
loop, write the histories (and the `support_nodes` rebuilt by every
`create_model` call) back to the beam, and on success populate the envelopes,
the analysis stats and `valid_results`; on convergence failure nothing
besides the histories and `support_nodes` changes. -/
def Beam.analyze_ponding (solver : Solver) (st : Beam) :
    Beam × Option PondError :=
  let st := resetHistories st
  if st.supports.isEmpty then
    (st, some (.valueError "No supports defined. Please define supports."))
  else
    let ls0 : LoopSt :=
      { pdh := st.ponded_depth_history, dfh := st.deflection_history,
        areas := [(0, 0)], errs := [(.fin 0, .fin 0)] }
    let out := goLoop solver st 51 0 ls0
    let st := { st with
        support_nodes := computeSupportNodes st,
        ponded_depth_history := out.ls.pdh,
        deflection_history := out.ls.dfh }
    match out.err with
    | some e => (st, some e)
    | none =>
      let st := populateEnvelopes solver st out.modelDepths
      ({ st with
          valid_results := true,
          analysis_stats := some ⟨out.iters, out.ls.areas, out.ls.errs⟩ }, none)

/-- The loop-state trajectory of a run: `trajLS n` is the loop state after
`n` body executions, starting from the seeded loop state. -/
def trajLS (solver : Solver) (st : Beam) : ℕ → LoopSt
  | 0 =>
    { pdh := [st.ponded_depth_history.headD default],
      dfh := [st.deflection_history.headD default],
      areas := [(0, 0)], errs := [(.fin 0, .fin 0)] }
  | n + 1 => pondingBody solver st (n + 1) (trajLS solver st n)

/-- Embedding of `Beam.reaction_envelope_at_node`: validates the family
string, then the node, then filters the node's reaction dictionary to the
combination names of the selected family.  A missing reaction dictionary for
a known support node (never the case after a successful run) maps to the
`KeyError` Python would raise. -/
def Beam.reaction_envelope_at_node (st : Beam) (node : String)
    (combo_type : String) : Except PondError (List (String × ℚ)) :=
  if combo_type ∉ (["asd", "lrfd"] : List String) then
    .error (.valueError
      "Invalid load combination type. Please enter 'asd' or 'lrfd'.")
  else if ¬ st.support_nodes.any (fun p => p.1 = node) then
    .error (.valueError "Invalid node. Please enter a valid support node name.")
  else
    let selected_combos := if combo_type = "asd" then asdComboNames else lrfdComboNames
    match st.reaction_envelope.lookup node with
    | none => .error (.valueError "KeyError")
    | some entries => .ok (entries.filter (fun p => p.1 ∈ selected_combos))

/-- Stand-in for the external section-property tables, with the real AISC
values for W12X14 and an arbitrary span-dependent joist law for 12K1; used
only to instantiate witnesses, never in the theorems' generality. -/
def toyDB : SectionDB := {
  valid := ["W12X14", "12K1"]
  wIy := fun _ => 2.36
  wIx := fun _ => 88.6
  wJ := fun _ => 0.0704
  wArea := fun _ => 4.16
  kMomInertia := fun _ span => span * 2
  kEqArea := fun _ => 1.5
  kcsMomInertia := fun _ _ => 10
  kcsEqArea := fun _ => 2 }

/-- Modelled from the spec: the external finite-element solver is a linear
black box, so for a model carrying no loads at all it reports zero
deflection at every station and zero reactions and internal forces.  This
oracle instantiates that contract for the zero-load scenarios. -/
def zeroSolver : Solver := {
  defl := fun _ _ => List.replicate 101 0
  rxnFY := fun _ _ _ => 0
  maxMoment := fun _ _ _ => 0
  minMoment := fun _ _ _ => 0
  maxDeflection := fun _ _ _ => 0
  minDeflection := fun _ _ _ => 0 }

/-- The zero-load scenario beam of the spec's §8: fresh 20 ft beam (slope 0,
tributary width 0, rain depth (0, 0), no user loads) with a single support
at the left end. -/
def zeroScenarioBeam : Beam :=
  ((Beam.init toyDB 20 "PondSys Beam").add_support 0 0 0 0).1

/-- The converging scenario: the zero-load beam with rain depth (1, 0); with
the zero-deflection oracle the ponded profile is identical from iteration 1
on, so the relative error at iteration 2 is 0 and the run converges. -/
def convergingBeam : Beam :=
  (zeroScenarioBeam.add_or_update_rain_load (1, 0) false).1

theorem add_support_invalidates (st : Beam) (l a b c : ℚ) :
    (st.add_support l a b c).2 = none →
    (st.add_support l a b c).1.valid_results = false := by
  unfold Beam.add_support; split <;> simp

theorem delete_support_invalidates (st : Beam) (i : ℤ) :
    (st.delete_support i).2 = none →
    (st.delete_support i).1.valid_results = false := by
  unfold Beam.delete_support; split <;> simp

theorem beam_slope_invalidates (st : Beam) (q : ℚ) :
    (st.add_or_update_beam_slope q).2 = none →
    (st.add_or_update_beam_slope q).1.valid_results = false := by
  unfold Beam.add_or_update_beam_slope; split <;> simp

theorem add_dist_load_invalidates (st : Beam) (a b c d : ℚ) (tag : String) :
    (st.add_dist_load a b c d tag).2 = none →
    (st.add_dist_load a b c d tag).1.valid_results = false := by
  unfold Beam.add_dist_load; split <;> (try split) <;> (try split) <;> simp

theorem delete_dist_load_invalidates (st : Beam) (i : ℤ) :
    (st.delete_dist_load i).2 = none →
    (st.delete_dist_load i).1.valid_results = false := by
  unfold Beam.delete_dist_load; split <;> simp

theorem clear_dist_loads_invalidates (st : Beam) (tag : String) :
    (st.clear_dist_loads tag).2 = none →
    (st.clear_dist_loads tag).1.valid_results = false := by
  unfold Beam.clear_dist_loads; split <;> simp

theorem add_point_load_invalidates (st : Beam) (a b : ℚ) (tag : String) :
    (st.add_point_load a b tag).2 = none →
    (st.add_point_load a b tag).1.valid_results = false := by
  unfold Beam.add_point_load; split <;> (try split) <;> (try split) <;> simp

theorem delete_point_load_invalidates (st : Beam) (i : ℤ) :
    (st.delete_point_load i).2 = none →
    (st.delete_point_load i).1.valid_results = false := by
  unfold Beam.delete_point_load; split <;> simp

theorem clear_point_loads_invalidates (st : Beam) (tag : String) :
    (st.clear_point_loads tag).2 = none →
    (st.clear_point_loads tag).1.valid_results = false := by
  unfold Beam.clear_point_loads; split <;> simp

theorem rain_load_invalidates (st : Beam) (rd : ℚ × ℚ) (auto : Bool) :
    (st.add_or_update_rain_load rd auto).2 = none →
    (st.add_or_update_rain_load rd auto).1.valid_results = false := by
  simp only [Beam.add_or_update_rain_load]
  split
  · simp
  · split
    · split <;> (try split) <;> simp
    · simp

theorem tributary_width_invalidates (st : Beam) (q : ℚ) :
    (st.add_or_update_tributary_width q).2 = none →
    (st.add_or_update_tributary_width q).1.valid_results = false := by
  unfold Beam.add_or_update_tributary_width; split <;> simp

theorem section_invalidates (db : SectionDB) (st : Beam) (s : String) :
    (st.add_or_update_section db s).2 = none →
    (st.add_or_update_section db s).1.valid_results = false := by
  simp only [Beam.add_or_update_section]
  split
  · simp
  · split <;> (try split) <;> (try split) <;> simp

/-- Claim C7: every mutator on loads, supports, section, slope, tributary
width, or rain depth (every add/delete/clear and every add_or_update_*
operation), upon success, sets valid_results to false — even when the
supplied inputs are identical to the beam's current state (no mutator
compares against the current state before invalidating). -/
theorem mutators_set_valid_results_false (st : Beam) (db : SectionDB)
    (loc DX DY RZ q a b c d : ℚ) (rd : ℚ × ℚ) (auto : Bool) (idx : ℤ)
    (tag s : String) :
    ((st.add_support loc DX DY RZ).2 = none →
      (st.add_support loc DX DY RZ).1.valid_results = false) ∧
    ((st.delete_support idx).2 = none →
      (st.delete_support idx).1.valid_results = false) ∧
    ((st.add_or_update_beam_slope q).2 = none →
      (st.add_or_update_beam_slope q).1.valid_results = false) ∧
    ((st.add_dist_load a b c d tag).2 = none →
      (st.add_dist_load a b c d tag).1.valid_results = false) ∧
    ((st.delete_dist_load idx).2 = none →
      (st.delete_dist_load idx).1.valid_results = false) ∧
    ((st.clear_dist_loads tag).2 = none →
      (st.clear_dist_loads tag).1.valid_results = false) ∧
    ((st.add_point_load a b tag).2 = none →
      (st.add_point_load a b tag).1.valid_results = false) ∧
    ((st.delete_point_load idx).2 = none →
      (st.delete_point_load idx).1.valid_results = false) ∧
    ((st.clear_point_loads tag).2 = none →
      (st.clear_point_loads tag).1.valid_results = false) ∧
    ((st.add_or_update_rain_load rd auto).2 = none →
      (st.add_or_update_rain_load rd auto).1.valid_results = false) ∧
    ((st.add_or_update_tributary_width q).2 = none →
      (st.add_or_update_tributary_width q).1.valid_results = false) ∧
    ((st.add_or_update_section db s).2 = none →
      (st.add_or_update_section db s).1.valid_results = false) :=
  ⟨add_support_invalidates st loc DX DY RZ,
   delete_support_invalidates st idx,
   beam_slope_invalidates st q,
   add_dist_load_invalidates st a b c d tag,
   delete_dist_load_invalidates st idx,
   clear_dist_loads_invalidates st tag,
   add_point_load_invalidates st a b tag,
   delete_point_load_invalidates st idx,
   clear_point_loads_invalidates st tag,
   rain_load_invalidates st rd auto,
   tributary_width_invalidates st q,
   section_invalidates db st s⟩

/-- A beam with one support, one distributed load and one point load, used to
exercise every mutator's success path. -/
def witnessBeam : Beam :=
  ((zeroScenarioBeam.add_dist_load 0 1 5 5 "D").1.add_point_load 1 2 "D").1

theorem mutators_set_valid_results_false_witness :
    ((witnessBeam.add_support 1 0 0 0).2 = none ∧
      (witnessBeam.add_support 1 0 0 0).1.valid_results = false) ∧
    ((witnessBeam.delete_support 0).2 = none ∧
      (witnessBeam.delete_support 0).1.valid_results = false) ∧
    ((witnessBeam.add_or_update_beam_slope (1/4)).2 = none ∧
      (witnessBeam.add_or_update_beam_slope (1/4)).1.valid_results = false) ∧
    ((witnessBeam.add_dist_load 0 2 3 3 "D").2 = none ∧
      (witnessBeam.add_dist_load 0 2 3 3 "D").1.valid_results = false) ∧
    ((witnessBeam.delete_dist_load 0).2 = none ∧
      (witnessBeam.delete_dist_load 0).1.valid_results = false) ∧
    ((witnessBeam.clear_dist_loads "D").2 = none ∧
      (witnessBeam.clear_dist_loads "D").1.valid_results = false) ∧
    ((witnessBeam.add_point_load 0 2 "D").2 = none ∧
      (witnessBeam.add_point_load 0 2 "D").1.valid_results = false) ∧
    ((witnessBeam.delete_point_load 0).2 = none ∧
      (witnessBeam.delete_point_load 0).1.valid_results = false) ∧
    ((witnessBeam.clear_point_loads "D").2 = none ∧
      (witnessBeam.clear_point_loads "D").1.valid_results = false) ∧
    ((witnessBeam.add_or_update_rain_load (1, 1) true).2 = none ∧
      (witnessBeam.add_or_update_rain_load (1, 1) true).1.valid_results = false) ∧
    ((witnessBeam.add_or_update_tributary_width (1/4)).2 = none ∧
      (witnessBeam.add_or_update_tributary_width (1/4)).1.valid_results = false) ∧
    ((witnessBeam.add_or_update_section toyDB "W12X14").2 = none ∧
      (witnessBeam.add_or_update_section toyDB "W12X14").1.valid_results = false) := by
  have h := mutators_set_valid_results_false witnessBeam toyDB 1 0 0 0 (1/4) 0 2 3 3
    ((1 : ℚ), (1 : ℚ)) true 0 "D" "W12X14"
  exact ⟨⟨by decide, h.1 (by decide)⟩,
    ⟨by decide, h.2.1 (by decide)⟩,
    ⟨by decide, h.2.2.1 (by decide)⟩,
    ⟨by decide, h.2.2.2.1 (by decide)⟩,
    ⟨by decide, h.2.2.2.2.1 (by decide)⟩,
    ⟨by decide, h.2.2.2.2.2.1 (by decide)⟩,
    ⟨by decide, h.2.2.2.2.2.2.1 (by decide)⟩,
    ⟨by decide, h.2.2.2.2.2.2.2.1 (by decide)⟩,
    ⟨by decide, h.2.2.2.2.2.2.2.2.1 (by decide)⟩,
    ⟨by decide, h.2.2.2.2.2.2.2.2.2.1 (by decide)⟩,
    ⟨by decide, h.2.2.2.2.2.2.2.2.2.2.1 (by decide)⟩,
    ⟨by decide, h.2.2.2.2.2.2.2.2.2.2.2 (by decide)⟩⟩

/-- Claim C10: if add_support, add_dist_load, or add_point_load raises a
validation error (negative location, extent beyond the beam length, or a
case tag outside D/Lr/R/S), the beam's state is unchanged — all validation
happens before any state is modified. -/
theorem failed_validation_leaves_state_unchanged (st : Beam)
    (l1 DX DY RZ s1 s2 w1 w2 l2 p : ℚ) (tag1 tag2 : String) :
    (∀ e, (st.add_support l1 DX DY RZ).2 = some e →
      (st.add_support l1 DX DY RZ).1 = st) ∧
    (∀ e, (st.add_dist_load s1 s2 w1 w2 tag1).2 = some e →
      (st.add_dist_load s1 s2 w1 w2 tag1).1 = st) ∧
    (∀ e, (st.add_point_load l2 p tag2).2 = some e →
      (st.add_point_load l2 p tag2).1 = st) := by
  refine ⟨fun e => ?_, fun e => ?_, fun e => ?_⟩
  · unfold Beam.add_support; split <;> simp
  · unfold Beam.add_dist_load; split <;> (try split) <;> (try split) <;> simp
  · unfold Beam.add_point_load; split <;> (try split) <;> (try split) <;> simp

theorem failed_validation_leaves_state_unchanged_witness :
    ((zeroScenarioBeam.add_support (-1) 0 0 0).2
        = some (.valueError "Location must be positive.") ∧
      (zeroScenarioBeam.add_support (-1) 0 0 0).1 = zeroScenarioBeam) ∧
    ((zeroScenarioBeam.add_dist_load 0 25 1 1 "D").2
        = some (.valueError
          "Start and stop locations must be less or equal to the length of the beam.") ∧
      (zeroScenarioBeam.add_dist_load 0 25 1 1 "D").1 = zeroScenarioBeam) ∧
    ((zeroScenarioBeam.add_point_load 1 1 "X").2
        = some (.valueError
          "Case must be one of dead (D), roof live (Lr), rain (R), or snow (S).") ∧
      (zeroScenarioBeam.add_point_load 1 1 "X").1 = zeroScenarioBeam) := by
  have h := failed_validation_leaves_state_unchanged zeroScenarioBeam
    (-1) 0 0 0 0 25 1 1 1 1 "D" "X"
  exact ⟨⟨by decide, h.1 (.valueError "Location must be positive.") (by decide)⟩,
    ⟨by decide, h.2.1 (.valueError
      "Start and stop locations must be less or equal to the length of the beam.")
      (by decide)⟩,
    ⟨by decide, h.2.2 (.valueError
      "Case must be one of dead (D), roof live (Lr), rain (R), or snow (S).")
      (by decide)⟩⟩

/-- Claim C4: `divide_by_zero(a, b)` returns `a/b` whenever `b` is nonzero
and +infinity whenever `b` is zero — including `divide_by_zero(5, 0)` and
`divide_by_zero(0, 0)` — never raising; and each iteration's per-track
relative error equals `|area(i) - area(i-1)| / area(i)` computed with this
guard, so a zero current area yields +infinity rather than a fault. -/
theorem divide_by_zero_guard_spec (a b : ℚ) (hb : b ≠ 0)
    (solver : Solver) (st : Beam) (i : ℕ) (ls : LoopSt)
    (hprev : i - 1 < ls.areas.length) :
    divide_by_zero a b = .fin (a / b) ∧
    divide_by_zero a 0 = .inf ∧
    divide_by_zero 5 0 = .inf ∧
    divide_by_zero 0 0 = .inf ∧
    (pondingBody solver st i ls).errs = ls.errs ++
      [(divide_by_zero
          |((pondingBody solver st i ls).areas.getLastD (0, 0)).1 -
            (ls.areas.getD (i - 1) (0, 0)).1|
          ((pondingBody solver st i ls).areas.getLastD (0, 0)).1,
        divide_by_zero
          |((pondingBody solver st i ls).areas.getLastD (0, 0)).2 -
            (ls.areas.getD (i - 1) (0, 0)).2|
          ((pondingBody solver st i ls).areas.getLastD (0, 0)).2)] := by
  refine ⟨by simp [divide_by_zero, hb], by simp [divide_by_zero],
    by simp [divide_by_zero], by simp [divide_by_zero], ?_⟩
  simp only [pondingBody]
  rw [List.getLastD_concat, List.getD_append _ _ _ _ hprev]

theorem divide_by_zero_guard_spec_witness :
    (2 : ℚ) ≠ 0 ∧ 1 - 1 < (trajLS zeroSolver zeroScenarioBeam 0).areas.length ∧
      divide_by_zero 5 2 = .fin (5 / 2) :=
  ⟨by decide, by decide,
    (divide_by_zero_guard_spec 5 2 (by decide) zeroSolver zeroScenarioBeam 1
      (trajLS zeroSolver zeroScenarioBeam 0) (by decide)).1⟩

theorem clear_dist_loads_R (st : Beam) :
    st.clear_dist_loads "R" =
      ({ st with dist_loads := st.dist_loads.filter (fun l => l.caseTag ≠ "R"),
                 valid_results := false }, none) := by
  unfold Beam.clear_dist_loads
  rw [if_neg (by decide)]

theorem add_dist_load_R_ok (st : Beam) (a b c d : ℚ)
    (h1 : 0 ≤ a) (h2 : 0 ≤ b) (h3 : a ≤ st.length) (h4 : b ≤ st.length) :
    st.add_dist_load a b c d "R" =
      ({ st with dist_loads := st.dist_loads ++ [⟨a, b, c, d, "R"⟩],
                 valid_results := false }, none) := by
  unfold Beam.add_dist_load
  rw [if_neg (not_or.mpr ⟨not_lt.mpr h1, not_lt.mpr h2⟩),
      if_neg (not_or.mpr ⟨not_lt.mpr h3, not_lt.mpr h4⟩),
      if_neg (by decide)]

/-- The rain load limit as the spec words it: the lesser of the beam length
and total_head/beam_slope, with the divide guard yielding the full beam
length when the slope is zero. -/
def rainLoadLimit_spec (st : Beam) (total : ℚ) : ℚ :=
  if st.beam_slope = 0 then st.length else min (total / st.beam_slope) st.length

/-- Claim C6: add_or_update_rain_load computes the rain load limit as the
lesser of the beam length and total_head/beam_slope (the divide guard
yielding the full beam length when the slope is zero), and with
auto_add_dist_load it removes all prior case-'R' distributed loads and
installs exactly one case-'R' load from 0 to the limit with start intensity
5.2·total_head·tributary_width and end intensity
5.2·(total_head − limit·slope)·tributary_width. -/
theorem rain_load_installs_single_R_load (st : Beam) (rd : ℚ × ℚ)
    (h1 : 0 ≤ rd.1) (h2 : 0 ≤ rd.2) (hL : 0 ≤ st.length)
    (hs : 0 ≤ st.beam_slope) :
    (st.add_or_update_rain_load rd true).2 = none ∧
    (st.add_or_update_rain_load rd true).1.rain_depth = rd ∧
    (st.add_or_update_rain_load rd true).1.dist_loads =
      st.dist_loads.filter (fun l => l.caseTag ≠ "R") ++
        [⟨0, rainLoadLimit_spec st (rd.1 + rd.2),
          5.2 * (rd.1 + rd.2) * st.tributary_width,
          5.2 * ((rd.1 + rd.2) - rainLoadLimit_spec st (rd.1 + rd.2) * st.beam_slope)
            * st.tributary_width,
          "R"⟩] := by
  have htot : 0 ≤ rd.1 + rd.2 := by linarith
  have hlim1 : 0 ≤ rainLoadLimit_spec st (rd.1 + rd.2) := by
    unfold rainLoadLimit_spec
    split
    · exact hL
    · exact le_min (div_nonneg htot hs) hL
  have hlim2 : rainLoadLimit_spec st (rd.1 + rd.2) ≤ st.length := by
    unfold rainLoadLimit_spec
    split
    · exact le_refl _
    · exact min_le_right _ _
  have hcode : (if (divide_by_zero (rd.1 + rd.2) st.beam_slope).leq st.length
        then (rd.1 + rd.2) / st.beam_slope else st.length)
      = rainLoadLimit_spec st (rd.1 + rd.2) := by
    unfold divide_by_zero rainLoadLimit_spec PFloat.leq
    by_cases hz : st.beam_slope = 0
    · simp [hz]
    · rw [if_neg hz, if_neg hz]
      by_cases hle : (rd.1 + rd.2) / st.beam_slope ≤ st.length
      · simp [hle, min_eq_left hle]
      · simp [hle, min_eq_right (le_of_not_le hle)]
  simp only [Beam.add_or_update_rain_load,
    if_neg (not_or.mpr ⟨not_lt.mpr h1, not_lt.mpr h2⟩)]
  rw [hcode, clear_dist_loads_R]
  simp only [if_true]
  rw [add_dist_load_R_ok]
  · exact ⟨rfl, rfl, rfl⟩
  · exact le_rfl
  · exact hlim1
  · exact hL
  · exact hlim2

/-- A sloped beam with a tributary width, for the rain-load witness. -/
def slopedBeam : Beam :=
  ((zeroScenarioBeam.add_or_update_beam_slope (1/4)).1.add_or_update_tributary_width 5).1

theorem rain_load_installs_single_R_load_witness :
    (0 : ℚ) ≤ (2 : ℚ) ∧ (0 : ℚ) ≤ (3 : ℚ) ∧ 0 ≤ slopedBeam.length ∧
      0 ≤ slopedBeam.beam_slope ∧
      ((slopedBeam.add_or_update_rain_load (2, 3) true).2 = none ∧
        (slopedBeam.add_or_update_rain_load (2, 3) true).1.rain_depth = (2, 3) ∧
        (slopedBeam.add_or_update_rain_load (2, 3) true).1.dist_loads =
          slopedBeam.dist_loads.filter (fun l => l.caseTag ≠ "R") ++
            [⟨0, rainLoadLimit_spec slopedBeam ((2 : ℚ) + 3),
              5.2 * ((2 : ℚ) + 3) * slopedBeam.tributary_width,
              5.2 * (((2 : ℚ) + 3) - rainLoadLimit_spec slopedBeam ((2 : ℚ) + 3)
                  * slopedBeam.beam_slope) * slopedBeam.tributary_width,
              "R"⟩]) :=
  ⟨by decide, by decide, by decide, by decide,
    rain_load_installs_single_R_load slopedBeam (2, 3)
      (by decide) (by decide) (by decide) (by decide)⟩

/-- The derived section properties `add_or_update_section` stores for the
uppercased designator `u` (`old` is kept when no family pattern matches,
mirroring the source's absent else-branch). -/
def sectionPropsFor (db : SectionDB) (len : ℚ) (u : String) (old : SecProps) : SecProps :=
  if isWShapeName u then ⟨db.wIy u, db.wIx u, db.wJ u, db.wArea u⟩
  else if isKJoistName u then
    ⟨db.kMomInertia ("K_" ++ u) len * 0.05, db.kMomInertia ("K_" ++ u) len,
     db.kMomInertia ("K_" ++ u) len * 1.05, db.kEqArea ("K_" ++ u)⟩
  else if isKCSJoistName u then
    ⟨db.kcsMomInertia ("KCS_" ++ u) len * 0.05, db.kcsMomInertia ("KCS_" ++ u) len,
     db.kcsMomInertia ("KCS_" ++ u) len * 1.05, db.kcsEqArea ("KCS_" ++ u)⟩
  else old

theorem section_ok (db : SectionDB) (st : Beam) (s : String)
    (h : pyUpper s ∈ db.valid) :
    st.add_or_update_section db s =
      ({ st with
          section' := pyUpper s,
          section_properties :=
            sectionPropsFor db st.length (pyUpper (pyUpper s)) st.section_properties,
          valid_results := false }, none) := by
  unfold Beam.add_or_update_section sectionPropsFor
  rw [if_neg (not_not_intro h)]
  by_cases h1 : isWShapeName (pyUpper (pyUpper s))
  · simp [h1]
  · by_cases h2 : isKJoistName (pyUpper (pyUpper s))
    · simp [h1, h2]
    · by_cases h3 : isKCSJoistName (pyUpper (pyUpper s))
      · simp [h1, h2, h3]
      · simp [h1, h2, h3]

theorem sectionPropsFor_idem (db : SectionDB) (len : ℚ) (u : String) (old : SecProps) :
    sectionPropsFor db len u (sectionPropsFor db len u old)
      = sectionPropsFor db len u old := by
  unfold sectionPropsFor
  split <;> (try split) <;> (try split) <;> rfl

theorem section_success_mem (db : SectionDB) (st : Beam) (s : String)
    (h : (st.add_or_update_section db s).2 = none) : pyUpper s ∈ db.valid := by
  by_contra hm
  unfold Beam.add_or_update_section at h
  rw [if_pos hm] at h
  exact Option.noConfusion h

/-- Claim C9: for any recognized section designator, calling
add_or_update_section twice in succession with that same designator (in any
letter case) yields identical derived section properties both times; for
joist designators the properties carry the fixed multipliers
Iy = 0.05 × strong-axis inertia and J = 1.05 × strong-axis inertia. -/
theorem section_idempotent (db : SectionDB) (st : Beam) (s1 s2 : String)
    (hcase : pyUpper s1 = pyUpper s2)
    (h1 : (st.add_or_update_section db s1).2 = none) :
    ((st.add_or_update_section db s1).1.add_or_update_section db s2).2 = none ∧
    ((st.add_or_update_section db s1).1.add_or_update_section db s2).1.section_properties
      = (st.add_or_update_section db s1).1.section_properties ∧
    (isWShapeName (pyUpper (pyUpper s1)) = false →
      isKJoistName (pyUpper (pyUpper s1)) = true →
      (st.add_or_update_section db s1).1.section_properties.Iy
          = 0.05 * (st.add_or_update_section db s1).1.section_properties.Iz ∧
        (st.add_or_update_section db s1).1.section_properties.J
          = 1.05 * (st.add_or_update_section db s1).1.section_properties.Iz) ∧
    (isWShapeName (pyUpper (pyUpper s1)) = false →
      isKJoistName (pyUpper (pyUpper s1)) = false →
      isKCSJoistName (pyUpper (pyUpper s1)) = true →
      (st.add_or_update_section db s1).1.section_properties.Iy
          = 0.05 * (st.add_or_update_section db s1).1.section_properties.Iz ∧
        (st.add_or_update_section db s1).1.section_properties.J
          = 1.05 * (st.add_or_update_section db s1).1.section_properties.Iz) := by
  have hv1 : pyUpper s1 ∈ db.valid := section_success_mem db st s1 h1
  have hv2 : pyUpper s2 ∈ db.valid := hcase ▸ hv1
  rw [section_ok db st s1 hv1]
  rw [section_ok db _ s2 hv2]
  refine ⟨rfl, ?_, ?_, ?_⟩
  · dsimp only
    rw [← hcase, sectionPropsFor_idem]
  · intro hw hk
    dsimp only
    unfold sectionPropsFor
    rw [if_neg (by simp [hw]), if_pos hk]
    exact ⟨mul_comm _ _, mul_comm _ _⟩
  · intro hw hk hkcs
    dsimp only
    unfold sectionPropsFor
    rw [if_neg (by simp [hw]), if_neg (by simp [hk]), if_pos hkcs]
    exact ⟨mul_comm _ _, mul_comm _ _⟩

theorem section_idempotent_witness :
    pyUpper "12k1" = pyUpper "12K1" ∧
    (zeroScenarioBeam.add_or_update_section toyDB "12k1").2 = none ∧
    ((zeroScenarioBeam.add_or_update_section toyDB "12k1").1.add_or_update_section
        toyDB "12K1").2 = none ∧
    ((zeroScenarioBeam.add_or_update_section toyDB "12k1").1.add_or_update_section
        toyDB "12K1").1.section_properties
      = (zeroScenarioBeam.add_or_update_section toyDB "12k1").1.section_properties ∧
    ((zeroScenarioBeam.add_or_update_section toyDB "12k1").1.section_properties.Iy
        = 0.05 * (zeroScenarioBeam.add_or_update_section toyDB "12k1").1.section_properties.Iz ∧
      (zeroScenarioBeam.add_or_update_section toyDB "12k1").1.section_properties.J
        = 1.05 * (zeroScenarioBeam.add_or_update_section toyDB "12k1").1.section_properties.Iz) := by
  have h := section_idempotent toyDB zeroScenarioBeam "12k1" "12K1" (by decide) (by decide)
  exact ⟨by decide, by decide, h.1, h.2.1, h.2.2.1 (by decide) (by decide)⟩

/-- Claim C8: for a node present in support_nodes and family selector 'asd'
(respectively 'lrfd'), reaction_envelope_at_node returns exactly the
reaction entries whose combination name belongs to that family's
combination table — excluding the other family's combinations and the bare
load cases — and it raises a validation error for a node not in
support_nodes or for a family string other than 'asd' or 'lrfd'. -/
theorem reaction_envelope_family_filter (st : Beam) (node : String) (r : String → ℚ)
    (hn : st.support_nodes.any (fun p => p.1 = node) = true)
    (hre : st.reaction_envelope.lookup node
      = some (allComboNames.map (fun c => (c, r c)))) :
    st.reaction_envelope_at_node node "asd"
      = .ok (asdComboNames.map (fun c => (c, r c))) ∧
    st.reaction_envelope_at_node node "lrfd"
      = .ok (lrfdComboNames.map (fun c => (c, r c))) ∧
    (∀ fam, fam ∉ (["asd", "lrfd"] : List String) →
      st.reaction_envelope_at_node node fam = .error (.valueError
        "Invalid load combination type. Please enter 'asd' or 'lrfd'.")) ∧
    (∀ node2, st.support_nodes.any (fun p => p.1 = node2) = false →
      st.reaction_envelope_at_node node2 "asd" = .error (.valueError
        "Invalid node. Please enter a valid support node name.")) := by
  refine ⟨?_, ?_, ?_, ?_⟩
  · unfold Beam.reaction_envelope_at_node
    rw [if_neg (by decide), if_neg (not_not_intro hn), hre]
    rfl
  · unfold Beam.reaction_envelope_at_node
    rw [if_neg (by decide), if_neg (not_not_intro hn), hre]
    rfl
  · intro fam hf
    unfold Beam.reaction_envelope_at_node
    rw [if_pos hf]
  · intro node2 h2
    unfold Beam.reaction_envelope_at_node
    rw [if_neg (by decide), if_pos (by simp [h2])]

/-- The beam state after a successful ponding run of the converging
scenario, whose reaction envelope was populated for support node N1. -/
def analyzedBeam : Beam := (Beam.analyze_ponding zeroSolver convergingBeam).1

theorem reaction_envelope_family_filter_witness :
    analyzedBeam.support_nodes.any (fun p => p.1 = "N1") = true ∧
    analyzedBeam.reaction_envelope.lookup "N1"
      = some (allComboNames.map (fun c => (c, (fun _ => (0 : ℚ)) c))) ∧
    analyzedBeam.reaction_envelope_at_node "N1" "asd"
      = .ok (asdComboNames.map (fun c => (c, (fun _ => (0 : ℚ)) c))) := by
  have h := reaction_envelope_family_filter analyzedBeam "N1" (fun _ => 0)
    (by decide) (by decide)
  exact ⟨by decide, by decide, h.1⟩

theorem getD_zipWith {α : Type} (f : α → α → α) (l1 l2 : List α) (i : ℕ) (d d1 d2 : α)
    (h1 : i < l1.length) (h2 : i < l2.length) :
    (List.zipWith f l1 l2).getD i d = f (l1.getD i d1) (l2.getD i d2) := by
  induction l1 generalizing l2 i with
  | nil => simp at h1
  | cons a t ih =>
    cases l2 with
    | nil => simp at h2
    | cons b t2 =>
      cases i with
      | zero => rfl
      | succ n =>
        simp only [List.zipWith_cons_cons, List.getD_cons_succ]
        exact ih t2 n (by simpa using h1) (by simpa using h2)

theorem where_eq_max (t e d : ℚ) :
    (if e - d ≤ t then t - (e - d) else 0) = max (t - (e - d)) 0 := by
  split
  · exact (max_eq_left (by linarith)).symm
  · exact (max_eq_right (by linarith)).symm

/-- Claim C5: in every iteration of analyze_ponding, for each track, the
newly appended ponded depth at each station equals
max(total_head − (station_elevation − deflection), 0), where deflection is
that iteration's solver deflection at the station for the track's
unfactored combination. -/
theorem ponded_depth_update_formula (solver : Solver) (st : Beam) (i : ℕ)
    (ls : LoopSt) (j : ℕ)
    (he : j < st.station_elevations.length)
    (hr : j < (solver.defl (ls.pdh.getLastD default) "1.0D+1.0R+1.0P").length)
    (hs : j < (solver.defl (ls.pdh.getLastD default) "1.0D+1.0S+1.0P").length) :
    ((pondingBody solver st i ls).pdh.getLastD default).rain.getD j 0
      = max ((st.rain_depth.1 + st.rain_depth.2)
          - (st.station_elevations.getD j 0
             - ((pondingBody solver st i ls).dfh.getLastD default).rain.getD j 0)) 0 ∧
    ((pondingBody solver st i ls).pdh.getLastD default).snow.getD j 0
      = max ((st.rain_depth.1 + st.rain_depth.2)
          - (st.station_elevations.getD j 0
             - ((pondingBody solver st i ls).dfh.getLastD default).snow.getD j 0)) 0 := by
  constructor
  · simp only [pondingBody]
    rw [List.getLastD_concat, List.getLastD_concat]
    show (depthUpdate _ _ _).getD j 0 = _
    unfold depthUpdate
    rw [getD_zipWith _ _ _ _ _ 0 0 he hr, where_eq_max]
  · simp only [pondingBody]
    rw [List.getLastD_concat, List.getLastD_concat]
    show (depthUpdate _ _ _).getD j 0 = _
    unfold depthUpdate
    rw [getD_zipWith _ _ _ _ _ 0 0 he hs, where_eq_max]

theorem ponded_depth_update_formula_witness :
    0 < zeroScenarioBeam.station_elevations.length ∧
    0 < (zeroSolver.defl ((trajLS zeroSolver zeroScenarioBeam 0).pdh.getLastD default)
        "1.0D+1.0R+1.0P").length ∧
    0 < (zeroSolver.defl ((trajLS zeroSolver zeroScenarioBeam 0).pdh.getLastD default)
        "1.0D+1.0S+1.0P").length ∧
    ((pondingBody zeroSolver zeroScenarioBeam 1
          (trajLS zeroSolver zeroScenarioBeam 0)).pdh.getLastD default).rain.getD 0 0
      = max ((zeroScenarioBeam.rain_depth.1 + zeroScenarioBeam.rain_depth.2)
          - (zeroScenarioBeam.station_elevations.getD 0 0
             - ((pondingBody zeroSolver zeroScenarioBeam 1
                  (trajLS zeroSolver zeroScenarioBeam 0)).dfh.getLastD default).rain.getD 0 0)) 0 := by
  have h := ponded_depth_update_formula zeroSolver zeroScenarioBeam 1
    (trajLS zeroSolver zeroScenarioBeam 0) 0 (by decide) (by decide) (by decide)
  exact ⟨by decide, by decide, by decide, h.1⟩

theorem slope_preserves_histories (st : Beam) (q : ℚ) :
    (st.add_or_update_beam_slope q).1.ponded_depth_history = st.ponded_depth_history ∧
    (st.add_or_update_beam_slope q).1.deflection_history = st.deflection_history := by
  unfold Beam.add_or_update_beam_slope; split <;> simp

theorem rain_false_preserves_histories (st : Beam) (rd : ℚ × ℚ) :
    (st.add_or_update_rain_load rd false).1.ponded_depth_history
        = st.ponded_depth_history ∧
    (st.add_or_update_rain_load rd false).1.deflection_history
        = st.deflection_history := by
  simp only [Beam.add_or_update_rain_load]
  split <;> simp

theorem section_preserves_histories (db : SectionDB) (st : Beam) (s : String) :
    (st.add_or_update_section db s).1.ponded_depth_history = st.ponded_depth_history ∧
    (st.add_or_update_section db s).1.deflection_history = st.deflection_history := by
  simp only [Beam.add_or_update_section]
  split
  · simp
  · split <;> (try split) <;> (try split) <;> simp

theorem trib_preserves_histories (st : Beam) (q : ℚ) :
    (st.add_or_update_tributary_width q).1.ponded_depth_history
        = st.ponded_depth_history ∧
    (st.add_or_update_tributary_width q).1.deflection_history
        = st.deflection_history := by
  unfold Beam.add_or_update_tributary_width; split <;> simp

/-- Claim C2 (amended): at the start of every analyze_ponding run the
histories are truncated to their existing single first entry; that entry is
not recomputed from total_head and station elevations — for a freshly
constructed beam it is the all-zero seed from the constructor (the
max(total_head − station_elevation, 0) formula lives only in
_calc_initial_rain_depth, which no code path invokes). -/
theorem histories_reset_to_existing_first_entry (st : Beam) (db : SectionDB)
    (L : ℚ) (nm : String) :
    (resetHistories st).ponded_depth_history
        = [st.ponded_depth_history.headD default] ∧
    (resetHistories st).deflection_history
        = [st.deflection_history.headD default] ∧
    (Beam.init db L nm).ponded_depth_history
        = [⟨List.replicate 101 0, List.replicate 101 0⟩] ∧
    (Beam.init db L nm).deflection_history
        = [⟨List.replicate 101 0, List.replicate 101 0⟩] := by
  refine ⟨rfl, rfl, ?_, ?_⟩
  · simp only [Beam.init]
    rw [(trib_preserves_histories _ _).1, (section_preserves_histories _ _ _).1,
        (rain_false_preserves_histories _ _).1, (slope_preserves_histories _ _).1]
  · simp only [Beam.init]
    rw [(trib_preserves_histories _ _).2, (section_preserves_histories _ _ _).2,
        (rain_false_preserves_histories _ _).2, (slope_preserves_histories _ _).2]

/-- Counterexample to claim C2 as stated: on a run of the converging scenario
(rain depth (1, 0), level beam), the seed entry left by the reset holds
ponded depth 0 at station 0, not max(total_head − elevation, 0) = 1. -/
theorem histories_reset_counterexample :
    ¬ (((Beam.analyze_ponding zeroSolver convergingBeam).1.ponded_depth_history.getD 0
          default).rain.getD 0 0
        = max ((convergingBeam.rain_depth.1 + convergingBeam.rain_depth.2)
            - convergingBeam.station_elevations.getD 0 0) 0) := by decide

/-- Counterexample to claim C1 as stated: in the zero-load, zero-rain-depth
scenario (one support, no user loads, slope 0, tributary width 0, rain depth
(0, 0)) the run does not terminate successfully by iteration 2 — the zero
ponded areas give relative error +infinity, which fails the < 1e-4 test, so
convergence is blocked and the convergence-failure condition is raised. -/
theorem zero_scenario_counterexample :
    (Beam.analyze_ponding zeroSolver zeroScenarioBeam).2
      = some (.convergenceFailure convergenceMsg) := by decide

/-- Claim C1 (amended): in the zero-load, zero-rain-depth scenario, the
ponded depth is 0 at every station for both tracks after every iteration,
and every iteration's relative error is +infinity (zero-over-zero guarded to
infinity), which never passes the < 1e-4 test: convergence is never
declared, and the run terminates with the convergence-failure condition at
iteration 51, leaving the seed plus 51 all-zero iteration entries. -/
theorem zero_scenario_amended :
    (Beam.analyze_ponding zeroSolver zeroScenarioBeam).1.ponded_depth_history
      = ⟨List.replicate 101 0, List.replicate 101 0⟩
          :: List.replicate 51 ⟨List.replicate 101 0, List.replicate 101 0⟩ ∧
    (∀ e ∈ (trajLS zeroSolver zeroScenarioBeam 51).errs.drop 1,
      e = (PFloat.inf, PFloat.inf)) ∧
    (Beam.analyze_ponding zeroSolver zeroScenarioBeam).2
      = some (.convergenceFailure convergenceMsg) :=
  ⟨by decide, by decide, by decide⟩

theorem goLoop_succ (solver : Solver) (st : Beam) (fuel iter : ℕ) (ls : LoopSt) :
    goLoop solver st (fuel+1) iter ls =
      if 1 < iter + 1 then
        if convergedAt (pondingBody solver st (iter+1) ls) = true then
          ⟨pondingBody solver st (iter+1) ls, ls.pdh.getLastD default, iter+1, none⟩
        else if 50 < iter + 1 then
          ⟨pondingBody solver st (iter+1) ls, ls.pdh.getLastD default, iter+1,
            some (.convergenceFailure convergenceMsg)⟩
        else goLoop solver st fuel (iter+1) (pondingBody solver st (iter+1) ls)
      else goLoop solver st fuel (iter+1) (pondingBody solver st (iter+1) ls) := rfl

theorem trajLS_succ (solver : Solver) (st : Beam) (n : ℕ) :
    trajLS solver st (n+1) = pondingBody solver st (n+1) (trajLS solver st n) := rfl

/-- Convergence is declared strictly after iteration `iter`: some iteration
`i` in `(iter, 51]` with `i ≥ 2` passes the convergence test, and no
testable iteration before it does. -/
def convergesWithin (solver : Solver) (st : Beam) (iter : ℕ) : Prop :=
  ∃ i, iter < i ∧ 2 ≤ i ∧ i ≤ 51 ∧ convergedAt (trajLS solver st i) = true ∧
    ∀ j, iter < j → 2 ≤ j → j < i → convergedAt (trajLS solver st j) = false

theorem goLoop_spec (solver : Solver) (st : Beam) :
    ∀ fuel iter, iter + fuel = 51 →
      ((goLoop solver st fuel iter (trajLS solver st iter)).err = none ↔
          convergesWithin solver st iter) ∧
      ((goLoop solver st fuel iter (trajLS solver st iter)).err = none →
        ∃ i, iter < i ∧ 2 ≤ i ∧ i ≤ 51 ∧ convergedAt (trajLS solver st i) = true ∧
          (∀ j, iter < j → 2 ≤ j → j < i →
            convergedAt (trajLS solver st j) = false) ∧
          goLoop solver st fuel iter (trajLS solver st iter)
            = ⟨trajLS solver st i, (trajLS solver st (i-1)).pdh.getLastD default,
                i, none⟩) ∧
      ((goLoop solver st fuel iter (trajLS solver st iter)).err ≠ none →
        (goLoop solver st fuel iter (trajLS solver st iter)).ls
            = trajLS solver st 51 ∧
        (goLoop solver st fuel iter (trajLS solver st iter)).iters = 51 ∧
        (goLoop solver st fuel iter (trajLS solver st iter)).err
            = some (.convergenceFailure convergenceMsg) ∧
        ∀ j, iter < j → 2 ≤ j → j ≤ 51 →
          convergedAt (trajLS solver st j) = false) := by
  intro fuel
  induction fuel with
  | zero =>
    intro iter hsum
    obtain rfl : iter = 51 := by omega
    refine ⟨⟨fun h => absurd h (by simp [goLoop]), ?_⟩,
      fun h => absurd h (by simp [goLoop]), fun _ => ⟨rfl, rfl, rfl, ?_⟩⟩
    · rintro ⟨i, hi1, -, hi3, -, -⟩; omega
    · intro j hj1 hj2 hj3; omega
  | succ fuel ih =>
    intro iter hsum
    have hlt51 : iter + 1 ≤ 51 := by omega
    rw [goLoop_succ, ← trajLS_succ]
    by_cases h1 : 1 < iter + 1
    · rw [if_pos h1]
      by_cases hc : convergedAt (trajLS solver st (iter + 1)) = true
      · rw [if_pos hc]
        refine ⟨⟨fun _ => ?_, fun _ => rfl⟩, fun _ => ?_, fun h => absurd rfl h⟩
        · exact ⟨iter + 1, Nat.lt_succ_self _, h1, hlt51, hc,
            fun j hj1 hj2 hj3 => by omega⟩
        · exact ⟨iter + 1, Nat.lt_succ_self _, h1, hlt51, hc,
            fun j hj1 hj2 hj3 => by omega, by simp⟩
      · rw [Bool.not_eq_true] at hc
        rw [if_neg (show ¬ convergedAt (trajLS solver st (iter + 1)) = true by
          simp [hc])]
        by_cases h50 : 50 < iter + 1
        · rw [if_pos h50]
          have h51 : iter + 1 = 51 := by omega
          refine ⟨⟨fun h => Option.noConfusion h, ?_⟩,
            fun h => Option.noConfusion h, fun _ => ⟨?_, ?_, rfl, ?_⟩⟩
          · rintro ⟨i, hi1, hi2, hi3, hconv, hbet⟩
            have he : i = iter + 1 := by omega
            rw [he, hc] at hconv
            exact Bool.noConfusion hconv
          · rw [h51]
          · simp [h51]
          · intro j hj1 hj2 hj3
            have he : j = iter + 1 := by omega
            rw [he, hc]
        · rw [if_neg h50]
          obtain ⟨ihiff, ihsucc, iherr⟩ := ih (iter + 1) (by omega)
          refine ⟨?_, ?_, ?_⟩
          · rw [ihiff]
            constructor
            · rintro ⟨i, hi1, hi2, hi3, hconv, hbet⟩
              refine ⟨i, by omega, hi2, hi3, hconv, fun j hj1 hj2 hj3 => ?_⟩
              rcases Nat.lt_or_ge (iter + 1) j with hj | hj
              · exact hbet j hj hj2 hj3
              · have he : j = iter + 1 := by omega
                rw [he, hc]
            · rintro ⟨i, hi1, hi2, hi3, hconv, hbet⟩
              have hgt : iter + 1 < i := by
                rcases Nat.lt_or_ge (iter + 1) i with h | h
                · exact h
                · exfalso
                  have he : i = iter + 1 := by omega
                  rw [he, hc] at hconv
                  exact Bool.noConfusion hconv
              exact ⟨i, hgt, hi2, hi3, hconv,
                fun j hj1 hj2 hj3 => hbet j (by omega) hj2 hj3⟩
          · intro herr
            obtain ⟨i, hi1, hi2, hi3, hconv, hbet, heq⟩ := ihsucc herr
            refine ⟨i, by omega, hi2, hi3, hconv, fun j hj1 hj2 hj3 => ?_, heq⟩
            rcases Nat.lt_or_ge (iter + 1) j with hj | hj
            · exact hbet j hj hj2 hj3
            · have he : j = iter + 1 := by omega
              rw [he, hc]
          · intro herr
            obtain ⟨hls, hit, herr2, hbet⟩ := iherr herr
            refine ⟨hls, hit, herr2, fun j hj1 hj2 hj3 => ?_⟩
            rcases Nat.lt_or_ge (iter + 1) j with hj | hj
            · exact hbet j hj hj2 hj3
            · have he : j = iter + 1 := by omega
              rw [he, hc]
    · rw [if_neg h1]
      obtain ⟨ihiff, ihsucc, iherr⟩ := ih (iter + 1) (by omega)
      refine ⟨?_, ?_, ?_⟩
      · rw [ihiff]
        constructor
        · rintro ⟨i, hi1, hi2, hi3, hconv, hbet⟩
          exact ⟨i, by omega, hi2, hi3, hconv,
            fun j hj1 hj2 hj3 => hbet j (by omega) hj2 hj3⟩
        · rintro ⟨i, hi1, hi2, hi3, hconv, hbet⟩
          exact ⟨i, by omega, hi2, hi3, hconv,
            fun j hj1 hj2 hj3 => hbet j (by omega) hj2 hj3⟩
      · intro herr
        obtain ⟨i, hi1, hi2, hi3, hconv, hbet, heq⟩ := ihsucc herr
        exact ⟨i, by omega, hi2, hi3, hconv,
          fun j hj1 hj2 hj3 => hbet j (by omega) hj2 hj3, heq⟩
      · intro herr
        obtain ⟨hls, hit, herr2, hbet⟩ := iherr herr
        exact ⟨hls, hit, herr2,
          fun j hj1 hj2 hj3 => hbet j (by omega) hj2 hj3⟩

theorem pondingBody_reset (solver : Solver) (st : Beam) (i : ℕ) (ls : LoopSt) :
    pondingBody solver (resetHistories st) i ls = pondingBody solver st i ls := rfl

theorem trajLS_reset (solver : Solver) (st : Beam) (n : ℕ) :
    trajLS solver (resetHistories st) n = trajLS solver st n := by
  induction n with
  | zero => rfl
  | succ n ihn => rw [trajLS_succ, trajLS_succ, ihn, pondingBody_reset]

theorem trajLS_pdh_length (solver : Solver) (st : Beam) (n : ℕ) :
    (trajLS solver st n).pdh.length = n + 1 := by
  induction n with
  | zero => rfl
  | succ n ihn =>
    rw [trajLS_succ]
    simp [pondingBody, List.length_append, ihn]

theorem analyze_unfold (solver : Solver) (st : Beam)
    (h : st.supports.isEmpty = false) :
    Beam.analyze_ponding solver st =
      (match (goLoop solver (resetHistories st) 51 0
          (trajLS solver (resetHistories st) 0)).err with
       | some e =>
         ({ resetHistories st with
             support_nodes := computeSupportNodes (resetHistories st),
             ponded_depth_history := (goLoop solver (resetHistories st) 51 0
               (trajLS solver (resetHistories st) 0)).ls.pdh,
             deflection_history := (goLoop solver (resetHistories st) 51 0
               (trajLS solver (resetHistories st) 0)).ls.dfh }, some e)
       | none =>
         ({ populateEnvelopes solver
             { resetHistories st with
                 support_nodes := computeSupportNodes (resetHistories st),
                 ponded_depth_history := (goLoop solver (resetHistories st) 51 0
                   (trajLS solver (resetHistories st) 0)).ls.pdh,
                 deflection_history := (goLoop solver (resetHistories st) 51 0
                   (trajLS solver (resetHistories st) 0)).ls.dfh }
             (goLoop solver (resetHistories st) 51 0
               (trajLS solver (resetHistories st) 0)).modelDepths with
             valid_results := true,
             analysis_stats := some
               ⟨(goLoop solver (resetHistories st) 51 0
                   (trajLS solver (resetHistories st) 0)).iters,
                (goLoop solver (resetHistories st) 51 0
                   (trajLS solver (resetHistories st) 0)).ls.areas,
                (goLoop solver (resetHistories st) 51 0
                   (trajLS solver (resetHistories st) 0)).ls.errs⟩ }, none)) := by
  unfold Beam.analyze_ponding
  rw [if_neg (show ¬ (resetHistories st).supports.isEmpty = true by
    simp [resetHistories, h])]
  rfl

theorem convergesWithin_reset (solver : Solver) (st : Beam) (iter : ℕ) :
    convergesWithin solver (resetHistories st) iter ↔
      convergesWithin solver st iter := by
  unfold convergesWithin
  simp only [trajLS_reset]

/-- Claim C3: in analyze_ponding, convergence is tested only from iteration
2 onward; the run terminates successfully exactly when both tracks' relative
error is below 1e-4 at some iteration in [2, 51] and at no earlier testable
iteration (then valid_results is set true and the stats are recorded for
that iteration), and otherwise the recoverable convergence-failure condition
is raised precisely when the iteration count exceeds 50 — at the 51st
iteration, not before (51 iteration entries appended) — with no partial
envelope produced (all envelope maps, valid_results and analysis_stats keep
their prior values). -/
theorem analyze_ponding_control_flow (solver : Solver) (st : Beam)
    (hs : st.supports ≠ []) :
    ((Beam.analyze_ponding solver st).2 = none ↔ convergesWithin solver st 0) ∧
    ((Beam.analyze_ponding solver st).2 = none →
      (Beam.analyze_ponding solver st).1.valid_results = true ∧
      ∃ i, 2 ≤ i ∧ i ≤ 51 ∧ convergedAt (trajLS solver st i) = true ∧
        (∀ j, 2 ≤ j → j < i → convergedAt (trajLS solver st j) = false) ∧
        (Beam.analyze_ponding solver st).1.ponded_depth_history.length = i + 1 ∧
        (Beam.analyze_ponding solver st).1.analysis_stats
          = some ⟨i, (trajLS solver st i).areas, (trajLS solver st i).errs⟩) ∧
    (∀ e, (Beam.analyze_ponding solver st).2 = some e →
      e = .convergenceFailure convergenceMsg ∧
      (∀ j, 2 ≤ j → j ≤ 51 → convergedAt (trajLS solver st j) = false) ∧
      (Beam.analyze_ponding solver st).1.ponded_depth_history.length = 52 ∧
      (Beam.analyze_ponding solver st).1.valid_results = st.valid_results ∧
      (Beam.analyze_ponding solver st).1.reaction_envelope = st.reaction_envelope ∧
      (Beam.analyze_ponding solver st).1.max_moment_envelope
        = st.max_moment_envelope ∧
      (Beam.analyze_ponding solver st).1.min_moment_envelope
        = st.min_moment_envelope ∧
      (Beam.analyze_ponding solver st).1.max_defl_envelope = st.max_defl_envelope ∧
      (Beam.analyze_ponding solver st).1.min_defl_envelope = st.min_defl_envelope ∧
      (Beam.analyze_ponding solver st).1.analysis_stats = st.analysis_stats) := by
  have hemp : st.supports.isEmpty = false := by simp [List.isEmpty_iff, hs]
  have hA := analyze_unfold solver st hemp
  obtain ⟨hiff, hsucc, herr⟩ := goLoop_spec solver (resetHistories st) 51 0 rfl
  rcases hE : (goLoop solver (resetHistories st) 51 0
      (trajLS solver (resetHistories st) 0)).err with _ | e0
  · obtain ⟨i, hi1, hi2, hi3, hconv, hbet, houteq⟩ := hsucc hE
    rw [trajLS_reset] at hconv
    have hbet' : ∀ j, 2 ≤ j → j < i →
        convergedAt (trajLS solver st j) = false := by
      intro j h2 hj
      have hb := hbet j (by omega) h2 hj
      rwa [trajLS_reset] at hb
    rw [hA, houteq]
    dsimp only
    refine ⟨?_, ?_, ?_⟩
    · constructor
      · intro _
        exact ⟨i, by omega, hi2, hi3, hconv,
          fun j h0 h2 hj => hbet' j h2 hj⟩
      · intro _; rfl
    · intro _
      refine ⟨rfl, i, hi2, hi3, hconv, hbet', ?_, ?_⟩
      · simp only [populateEnvelopes]
        exact trajLS_pdh_length solver (resetHistories st) i
      · simp only [populateEnvelopes, trajLS_reset]
    · intro e he
      exact absurd he (by simp)
  · have hne : (goLoop solver (resetHistories st) 51 0
        (trajLS solver (resetHistories st) 0)).err ≠ none := by
      rw [hE]; exact fun h => Option.noConfusion h
    obtain ⟨hls, hit, herr2, hbet⟩ := herr hne
    have he0 : e0 = .convergenceFailure convergenceMsg := by
      rw [hE] at herr2
      exact Option.some.inj herr2
    have hbet' : ∀ j, 2 ≤ j → j ≤ 51 →
        convergedAt (trajLS solver st j) = false := by
      intro j h2 hj
      have hb := hbet j (by omega) h2 hj
      rwa [trajLS_reset] at hb
    rw [hA, hE]
    dsimp only
    refine ⟨?_, ?_, ?_⟩
    · constructor
      · intro h; exact absurd h (by simp)
      · intro hcw
        exact absurd (hiff.mpr ((convergesWithin_reset solver st 0).mpr hcw)) hne
    · intro h; exact absurd h (by simp)
    · intro e he
      have hee : e = e0 := (Option.some.inj he).symm
      subst hee
      refine ⟨he0, hbet', ?_, rfl, rfl, rfl, rfl, rfl, rfl, rfl⟩
      show (goLoop solver (resetHistories st) 51 0
        (trajLS solver (resetHistories st) 0)).ls.pdh.length = 52
      rw [hls]
      exact trajLS_pdh_length solver (resetHistories st) 51

theorem analyze_ponding_control_flow_witness :
    convergingBeam.supports ≠ [] ∧
    ((Beam.analyze_ponding zeroSolver convergingBeam).2 = none ↔
      convergesWithin zeroSolver convergingBeam 0) :=
  ⟨by decide, (analyze_ponding_control_flow zeroSolver convergingBeam (by decide)).1⟩
